import Mathlib

/-!
# Verification of the hydration/calorie Telegram-bot core (src/bot.py)

Shallow embedding of the per-user conversation state machine, goal
calculator, activity ledger and dispatcher of `src/bot.py`.

Modelling conventions:
* Python `float` values are modelled as `ℚ`; Python `int` as `ℤ`.
* The process-wide `users` dictionary is modelled per user: each handler
  receives the `Option UserRecord` stored under the message sender's id
  (`users.get(message.from_user.id)`), `none` meaning the key is absent,
  and returns the updated entry.
* The two external lookups (OpenWeatherMap temperature, OpenFoodFacts
  product search) are passed to the handlers as the value the gateway
  would return for this input (`Option ℚ`, resp. `FoodLookup`).
* Handlers that can raise an uncaught Python exception (`KeyError` on a
  missing FSM-data key, `TypeError` on `None`) return `Option Effect`,
  `none` standing for the crash.
* Python `int(s)` / `float(s)` are modelled on their decimal fragment
  (optional sign, digits, optional fractional part); exponents,
  `inf`/`nan`, surrounding whitespace and underscores are outside the
  modelled fragment.
* `round(x, 3)` is modelled as rounding `x * 1000` to the nearest
  integer; Python's round-half-to-even tie behaviour (and binary float
  representation) differs only on exact ties, which no claim exercises.
-/

set_option maxRecDepth 8000

namespace Bot

/-- Digits of a numeral, most significant first, as a natural number. -/
def digitsVal (l : List Char) : ℕ :=
  l.foldl (fun acc c => acc * 10 + (c.toNat - 48)) 0

/-- Strip one leading sign character; returns (isNegative, rest). -/
def stripSign : List Char → Bool × List Char
  | '-' :: rest => (true, rest)
  | '+' :: rest => (false, rest)
  | l => (false, l)

/-- Models Python `int(s)` on the decimal fragment: an optional sign
followed by one or more digits. -/
def pyInt? (s : String) : Option ℤ :=
  let p := stripSign s.toList
  if p.2 ≠ [] ∧ p.2.all Char.isDigit then
    some (if p.1 then -(digitsVal p.2 : ℤ) else (digitsVal p.2 : ℤ))
  else none

/-- Models Python `float(s)` on the decimal fragment: an optional sign,
then digits with an optional point, at least one digit overall. -/
def pyFloat? (s : String) : Option ℚ :=
  let p := stripSign s.toList
  let intDigits := p.2.takeWhile Char.isDigit
  let rest := p.2.dropWhile Char.isDigit
  let mag? : Option ℚ :=
    match rest with
    | [] => if intDigits = [] then none else some (digitsVal intDigits : ℚ)
    | '.' :: frac =>
      if frac.all Char.isDigit ∧ (intDigits ≠ [] ∨ frac ≠ []) then
        some ((digitsVal intDigits : ℚ) + (digitsVal frac : ℚ) / (10 ^ frac.length))
      else none
    | _ => none
  mag?.map (fun m => if p.1 then -m else m)

/-- Whitespace-separated tokens of a character list; `cur` is the token
being collected, in reverse. Models Python `str.split()` (no argument):
runs of whitespace separate tokens, leading/trailing whitespace dropped. -/
def tokensAux : List Char → List Char → List String
  | [], cur => if cur = [] then [] else [String.mk cur.reverse]
  | c :: rest, cur =>
    if c.isWhitespace then
      if cur = [] then tokensAux rest []
      else String.mk cur.reverse :: tokensAux rest []
    else tokensAux rest (c :: cur)

/-- Models Python `str.split()` with no argument. -/
def pySplit (s : String) : List String := tokensAux s.toList []

/-- Models Python `str.lower()` on the character ranges the rate table
needs: ASCII A-Z and the basic Cyrillic capitals А-Я plus Ё. -/
def pyLowerChar (c : Char) : Char :=
  if 65 ≤ c.toNat ∧ c.toNat ≤ 90 then Char.ofNat (c.toNat + 32)
  else if 1040 ≤ c.toNat ∧ c.toNat ≤ 1071 then Char.ofNat (c.toNat + 32)
  else if c.toNat = 1025 then Char.ofNat 1105
  else c

/-- Models Python `str.lower()` (restricted as in `pyLowerChar`). -/
def pyLower (s : String) : String := String.mk (s.toList.map pyLowerChar)

/-- Executable floor of a rational (numerator floor-divided by denominator). -/
def ratFloor (q : ℚ) : ℤ := Int.fdiv q.num q.den

/-- `round(x, 3)`: round to the nearest multiple of 1/1000. -/
def round3 (x : ℚ) : ℚ := (ratFloor (x * 1000 + 1 / 2) : ℚ) / 1000

theorem ratFloor_eq (q : ℚ) : ratFloor q = ⌊q⌋ := by
  rw [ratFloor, Int.fdiv_eq_ediv _ (by exact_mod_cast q.den_pos.le), Rat.floor_def]

/-- `round3` agrees with rounding via Mathlib's `round`. -/
theorem round3_eq_round (x : ℚ) : round3 x = (round (x * 1000) : ℤ) / 1000 := by
  rw [round3, ratFloor_eq, round_eq]

end Bot

namespace Bot

/-- Conversation phases: aiogram's FSM states (`ProfileState.weight` ...
`ProfileState.city`, `FoodLoggingState.waiting_for_quantity`) plus `idle`
for "no state set". -/
inductive Phase where
  | idle
  | weight
  | height
  | age
  | activity
  | city
  | waiting_for_quantity
deriving DecidableEq

/-- The aiogram FSM data dictionary (`state.get_data()` /
`state.update_data(...)`): each key is present or absent. -/
structure Draft where
  weight : Option ℚ := none
  height : Option ℚ := none
  age : Option ℤ := none
  activity : Option ℤ := none
  food_name : Option String := none
  calories_per_100g : Option ℚ := none
deriving DecidableEq

/-- One user's FSM context: current state plus data. -/
structure Session where
  phase : Phase := .idle
  draft : Draft := {}
deriving DecidableEq

/-- The per-user entry of the `users` dictionary created in `set_city`. -/
structure UserRecord where
  weight : ℚ
  height : ℚ
  age : ℤ
  activity : ℤ
  city : String
  water_goal : ℚ
  calorie_goal : ℚ
  logged_water : ℚ
  logged_calories : ℚ
  burned_calories : ℚ
deriving DecidableEq

/-- The replies a handler can send, with the numeric payloads that are
interpolated into the message text. -/
inductive Reply where
  | startMsg
  | helpMsg
  | askWeight
  | askHeight
  | askAge
  | askActivity
  | askCity
  | badWeight
  | badHeight
  | badAge
  | badActivity
  | weatherFail
  | profileSet (water_goal calorie_goal temperature : ℚ)
  | needProfile
  | waterLogged (amount : ℤ) (logged goal remaining : ℚ)
  | waterUsage
  | workoutUsage
  | workoutLogged (workout_type : String) (duration : ℤ) (burned : ℚ) (water : ℤ)
  | badDuration
  | foodUsage
  | foodPrompt (food_name : String) (calories_per_100g : ℚ)
  | foodNotFound
  | foodApiError
  | foodLogged (food_name : String) (total_calories grams : ℚ)
  | badGrams
  | progress (logged_water water_goal remaining logged_calories calorie_goal
      burned_calories balance : ℚ)
deriving DecidableEq

/-- Result of one handler invocation: the updated `users` entry for this
user, the updated FSM context, and the reply sent. -/
structure Effect where
  user : Option UserRecord
  session : Session
  reply : Reply
deriving DecidableEq

/-- A product returned by the OpenFoodFacts search; the per-100g
kilocalorie field (`nutriments["energy-kcal_100g"]`) may be absent. -/
structure Product where
  energy_kcal_100g : Option ℚ
deriving DecidableEq

/-- Outcome of the OpenFoodFacts request: non-200 status, or a 200
response carrying the (possibly empty) `products` list. -/
inductive FoodLookup where
  | apiError
  | ok (products : List Product)
deriving DecidableEq

/-! ## Handlers (one definition per handler of src/bot.py) -/

/-- `cmd_start` (src/bot.py:98): greeting only. -/
def cmd_start (u : Option UserRecord) (s : Session) : Effect :=
  ⟨u, s, .startMsg⟩

/-- `cmd_help` (src/bot.py:106): command list only. -/
def cmd_help (u : Option UserRecord) (s : Session) : Effect :=
  ⟨u, s, .helpMsg⟩

/-- `cmd_set_profile` (src/bot.py:120): sets the FSM state to
`ProfileState.weight`; the FSM data is not cleared. -/
def cmd_set_profile (u : Option UserRecord) (s : Session) : Effect :=
  ⟨u, { s with phase := .weight }, .askWeight⟩

/-- `set_weight` (src/bot.py:126): `float(message.text)`; on success
store the draft weight and move to `ProfileState.height`, on
`ValueError` re-prompt with state and data unchanged. -/
def set_weight (u : Option UserRecord) (s : Session) (text : String) : Effect :=
  match pyFloat? text with
  | some weight =>
    ⟨u, ⟨.height, { s.draft with weight := some weight }⟩, .askHeight⟩
  | none => ⟨u, s, .badWeight⟩

/-- `set_height` (src/bot.py:137): analogous to `set_weight`. -/
def set_height (u : Option UserRecord) (s : Session) (text : String) : Effect :=
  match pyFloat? text with
  | some height =>
    ⟨u, ⟨.age, { s.draft with height := some height }⟩, .askAge⟩
  | none => ⟨u, s, .badHeight⟩

/-- `set_age` (src/bot.py:148): `int(message.text)`. -/
def set_age (u : Option UserRecord) (s : Session) (text : String) : Effect :=
  match pyInt? text with
  | some age =>
    ⟨u, ⟨.activity, { s.draft with age := some age }⟩, .askActivity⟩
  | none => ⟨u, s, .badAge⟩

/-- `set_activity` (src/bot.py:159): `int(message.text)`. -/
def set_activity (u : Option UserRecord) (s : Session) (text : String) : Effect :=
  match pyInt? text with
  | some activity =>
    ⟨u, ⟨.city, { s.draft with activity := some activity }⟩, .askCity⟩
  | none => ⟨u, s, .badActivity⟩

/-- `set_city` (src/bot.py:170): `temp?` is the value `get_weather(city)`
returned (`none` = non-200 status). On `none`: failure message, state and
data untouched. Otherwise compute the goals, store a fresh `users` entry
with zeroed ledger (replacing any previous entry) and clear the FSM
context. A missing draft key would raise `KeyError` (result `none`). -/
def set_city (u : Option UserRecord) (s : Session) (text : String)
    (temp? : Option ℚ) : Option Effect :=
  let city := text
  match temp? with
  | none => some ⟨u, s, .weatherFail⟩
  | some temperature =>
    match s.draft.weight, s.draft.height, s.draft.age, s.draft.activity with
    | some weight, some height, some age, some activity =>
      let extra_water : ℚ := if 25 < temperature then 500 else 0
      let water_goal := round3 (weight * 30 + (activity : ℚ) / 30 * 500 + extra_water)
      let calorie_goal := round3 (10 * weight + 6.25 * height - 5 * (age : ℚ))
      some ⟨some ⟨weight, height, age, activity, city, water_goal, calorie_goal, 0, 0, 0⟩,
            ⟨.idle, {}⟩, .profileSet water_goal calorie_goal temperature⟩
    | _, _, _, _ => none

/-- The water amount of a `/log_water` message:
`int(message.text.split()[1])`; `none` covers both `IndexError` and
`ValueError`, which the handler catches together. -/
def water_amount? (text : String) : Option ℤ :=
  match (pySplit text).drop 1 with
  | [] => none
  | a :: _ => pyInt? a

/-- `cmd_log_water` (src/bot.py:209): requires a `users` entry; adds the
parsed amount to `logged_water` and reports the remaining amount clamped
at zero; on a malformed or missing amount, usage message and no change. -/
def cmd_log_water (u : Option UserRecord) (s : Session) (text : String) : Effect :=
  match u with
  | none => ⟨none, s, .needProfile⟩
  | some ud =>
    match water_amount? text with
    | some amount =>
      let logged := ud.logged_water + (amount : ℚ)
      ⟨some { ud with logged_water := logged }, s,
       .waterLogged amount logged ud.water_goal (max 0 (ud.water_goal - logged))⟩
    | none => ⟨some ud, s, .waterUsage⟩

/-- The `calories_per_minute` table of `cmd_log_workout`
(src/bot.py:252), i.e. `dict.get` with default 5. -/
def calories_per_minute (workout_type : String) : ℚ :=
  if workout_type = "бег" then 10
  else if workout_type = "плавание" then 8
  else if workout_type = "йога" then 4
  else if workout_type = "велосипед" then 6
  else 5

/-- `message.text.split()[1:]` of `cmd_log_workout` (src/bot.py:235). -/
def workout_data (text : String) : List String := (pySplit text).drop 1

/-- The parsed workout duration: `int(workout_data[1])` when at least two
arguments are present. -/
def workout_duration? (text : String) : Option ℤ :=
  match workout_data text with
  | _ :: d :: _ => pyInt? d
  | _ => none

/-- `cmd_log_workout` (src/bot.py:228): requires a `users` entry; with
fewer than two arguments, usage message; otherwise look the lowercased
type up in the rate table (default 5), add `rate * duration` to
`burned_calories` and `(duration // 30) * 200` to `logged_water`
(Python `//` is floor division); a malformed duration re-prompts with no
change. -/
def cmd_log_workout (u : Option UserRecord) (s : Session) (text : String) : Effect :=
  match u with
  | none => ⟨none, s, .needProfile⟩
  | some ud =>
    match workout_data text with
    | workout_type :: durStr :: _ =>
      match pyInt? durStr with
      | some duration =>
        let burned := calories_per_minute (pyLower workout_type) * (duration : ℚ)
        let additional_water : ℤ := (Int.fdiv duration 30) * 200
        ⟨some { ud with burned_calories := ud.burned_calories + burned,
                        logged_water := ud.logged_water + (additional_water : ℚ) },
         s, .workoutLogged workout_type duration burned additional_water⟩
      | none => ⟨some ud, s, .badDuration⟩
    | _ => ⟨some ud, s, .workoutUsage⟩

/-- `" ".join(message.text.split()[1:])` of `cmd_log_food`
(src/bot.py:281). -/
def food_name_arg (text : String) : String :=
  String.intercalate " " ((pySplit text).drop 1)

/-- `cmd_log_food` (src/bot.py:274): requires a `users` entry and a
non-empty food name; `lookup` is the OpenFoodFacts response for that
name. On a 200 response with a non-empty product list, stores the first
product's kcal density (default 0 when the field is absent) in the FSM
data and moves to `waiting_for_quantity`; empty list or non-200 leave
everything unchanged. -/
def cmd_log_food (u : Option UserRecord) (s : Session) (text : String)
    (lookup : FoodLookup) : Effect :=
  match u with
  | none => ⟨none, s, .needProfile⟩
  | some ud =>
    let food_name := food_name_arg text
    if food_name = "" then ⟨some ud, s, .foodUsage⟩
    else
      match lookup with
      | .apiError => ⟨some ud, s, .foodApiError⟩
      | .ok products =>
        match products with
        | [] => ⟨some ud, s, .foodNotFound⟩
        | first_product :: _ =>
          let calories := first_product.energy_kcal_100g.getD 0
          ⟨some ud,
           ⟨.waiting_for_quantity,
            { s.draft with food_name := some food_name, calories_per_100g := some calories }⟩,
           .foodPrompt food_name calories⟩

/-- `process_food_quantity` (src/bot.py:307): `float(message.text)`; on
`ValueError`, re-prompt with everything unchanged. Otherwise read the
food draft (`KeyError` on a missing key → `none`) and the `users` entry
(`None` would crash on the `+=` → `none`), add
`calories_per_100g / 100 * grams` to `logged_calories` and clear the FSM
context. -/
def process_food_quantity (u : Option UserRecord) (s : Session)
    (text : String) : Option Effect :=
  match pyFloat? text with
  | none => some ⟨u, s, .badGrams⟩
  | some grams =>
    match s.draft.food_name, s.draft.calories_per_100g, u with
    | some food_name, some calories_per_100g, some ud =>
      let total_calories := calories_per_100g / 100 * grams
      some ⟨some { ud with logged_calories := ud.logged_calories + total_calories },
            ⟨.idle, {}⟩, .foodLogged food_name total_calories grams⟩
    | _, _, _ => none

/-- `cmd_check_progress` (src/bot.py:327): requires a `users` entry;
read-only progress report. -/
def cmd_check_progress (u : Option UserRecord) (s : Session) : Effect :=
  match u with
  | none => ⟨none, s, .needProfile⟩
  | some ud =>
    ⟨some ud, s,
     .progress ud.logged_water ud.water_goal
       (max 0 (ud.water_goal - ud.logged_water))
       ud.logged_calories ud.calorie_goal ud.burned_calories
       (ud.logged_calories - ud.burned_calories)⟩

end Bot

namespace Bot

/-- Models the aiogram `Command` filter for the fragment this bot uses:
the message's first whitespace-separated token is "/" followed by the
command name (bot-mention suffixes are outside the modelled fragment). -/
def isCmd (cmd text : String) : Bool :=
  (pySplit text).head? == some ("/" ++ cmd)

/-- The handler registered for the session's current FSM state
(`ProfileState.*` → the corresponding step handler,
`FoodLoggingState.waiting_for_quantity` → `process_food_quantity`);
no state-filtered handler matches in `idle`. -/
def phase_handler (u : Option UserRecord) (s : Session) (text : String)
    (temp? : Option ℚ) : Option Effect :=
  match s.phase with
  | .idle => none
  | .weight => some (set_weight u s text)
  | .height => some (set_height u s text)
  | .age => some (set_age u s text)
  | .activity => some (set_activity u s text)
  | .city => set_city u s text temp?
  | .waiting_for_quantity => process_food_quantity u s text

/-- Models aiogram 3 dispatch over the handlers of src/bot.py: handlers
are tried in registration order (src/bot.py lines 98, 106, 120, 126,
137, 148, 159, 170, 209, 228, 274, 307, 327) and the first one all of
whose filters match fires. A `Command` filter matches in every FSM
state; a state filter matches only its own state. `none` means no
handler matched (or the firing handler crashed). -/
def dispatch (u : Option UserRecord) (s : Session) (text : String)
    (temp? : Option ℚ) (lookup : FoodLookup) : Option Effect :=
  if isCmd "start" text then some (cmd_start u s)
  else if isCmd "help" text then some (cmd_help u s)
  else if isCmd "set_profile" text then some (cmd_set_profile u s)
  else if s.phase = .weight then some (set_weight u s text)
  else if s.phase = .height then some (set_height u s text)
  else if s.phase = .age then some (set_age u s text)
  else if s.phase = .activity then some (set_activity u s text)
  else if s.phase = .city then set_city u s text temp?
  else if isCmd "log_water" text then some (cmd_log_water u s text)
  else if isCmd "log_workout" text then some (cmd_log_workout u s text)
  else if isCmd "log_food" text then some (cmd_log_food u s text lookup)
  else if s.phase = .waiting_for_quantity then process_food_quantity u s text
  else if isCmd "check_progress" text then some (cmd_check_progress u s)
  else none

/-! ## Ledger predicates -/

/-- The three ledger quantities of `b` are at least those of `a`, and
the entry neither appears nor disappears. -/
def LedgerMono : Option UserRecord → Option UserRecord → Prop
  | none, none => True
  | some a, some b =>
    a.logged_water ≤ b.logged_water ∧ a.logged_calories ≤ b.logged_calories ∧
      a.burned_calories ≤ b.burned_calories
  | _, _ => False

/-- All three ledger quantities are non-negative. -/
def LedgerNonneg (r : UserRecord) : Prop :=
  0 ≤ r.logged_water ∧ 0 ≤ r.logged_calories ∧ 0 ≤ r.burned_calories

theorem ledgerMono_refl (u : Option UserRecord) : LedgerMono u u := by
  cases u <;> simp [LedgerMono]

end Bot

namespace Bot

/-! ## Spec-side goal formulas (§4.2 of the spec), for refinement claims -/

/-- Spec formula: `waterGoalMl = weightKg * 30 + (activityMinutes / 30) * 500
+ (temperatureC > 25 ? 500 : 0)`, rounded to 3 decimal places. -/
def spec_waterGoal (weightKg : ℚ) (activityMinutes : ℤ) (temperatureC : ℚ) : ℚ :=
  round3 (weightKg * 30 + (activityMinutes : ℚ) / 30 * 500 +
    if 25 < temperatureC then 500 else 0)

/-- Spec formula: `calorieGoalKcal = 10*weightKg + 6.25*heightCm - 5*ageYears`,
rounded to 3 decimal places. -/
def spec_calorieGoal (weightKg heightCm : ℚ) (ageYears : ℤ) : ℚ :=
  round3 (10 * weightKg + 6.25 * heightCm - 5 * (ageYears : ℚ))

/-- Test fixture: a committed profile with a 2500 ml water goal and an
empty ledger. -/
def r2500 : UserRecord :=
  ⟨70, 175, 25, 60, "Москва", 2500, 1668.75, 0, 0, 0⟩

/-- C1: for every committed profile, the goals stored at commit equal the
spec formulas evaluated at the draft physiology and the temperature the
lookup returned for the entered city. -/
theorem committed_goals_match_spec (u : Option UserRecord) (s : Session)
    (city : String) (t w h : ℚ) (a y : ℤ)
    (hw : s.draft.weight = some w) (hh : s.draft.height = some h)
    (hy : s.draft.age = some y) (ha : s.draft.activity = some a) :
    ∃ e, set_city u s city (some t) = some e ∧
      ∃ r, e.user = some r ∧ r.water_goal = spec_waterGoal w a t ∧
        r.calorie_goal = spec_calorieGoal w h y := by
  simp only [set_city, hw, hh, hy, ha]
  exact ⟨_, rfl, _, rfl, rfl, rfl⟩

theorem committed_goals_match_spec_witness :
    ∃ e, set_city none
        ⟨.city, { weight := some 70, height := some 175,
                  age := some 25, activity := some 60 }⟩
        "Сочи" (some 30) = some e ∧
      ∃ r, e.user = some r ∧ r.water_goal = spec_waterGoal 70 60 30 ∧
        r.calorie_goal = spec_calorieGoal 70 175 25 :=
  committed_goals_match_spec none _ "Сочи" 30 70 175 60 25 rfl rfl rfl rfl

/-- C4 counterexample: the input "-5" parses as a real that is not
positive, yet `set_weight` transitions to the height phase and stores it
as the draft weight. -/
theorem awaiting_weight_positive_counterexample :
    (set_weight none ⟨.weight, {}⟩ "-5").session.phase = .height ∧
    pyFloat? "-5" = some (-5) ∧ ¬ (0 : ℚ) < -5 := by
  refine ⟨by with_unfolding_all decide, by with_unfolding_all decide, by norm_num⟩

/-- C4 (amended): in phase AwaitingWeight the session transitions to
AwaitingHeight and stores the parsed value as the draft weight if and
only if the input parses as a real (no positivity check); on any other
input the phase and draft are unchanged and a re-prompt is emitted. -/
theorem awaiting_weight_transition (u : Option UserRecord) (s : Session)
    (text : String) :
    (∀ w : ℚ, pyFloat? text = some w →
      set_weight u s text =
        ⟨u, ⟨.height, { s.draft with weight := some w }⟩, .askHeight⟩) ∧
    (pyFloat? text = none → set_weight u s text = ⟨u, s, .badWeight⟩) := by
  constructor
  · intro w hw; simp [set_weight, hw]
  · intro hn; simp [set_weight, hn]

theorem awaiting_weight_transition_witness :
    set_weight none ⟨.weight, {}⟩ "72.5" =
      ⟨none, ⟨.height, { weight := some (145 / 2) }⟩, .askHeight⟩ :=
  (awaiting_weight_transition none ⟨.weight, {}⟩ "72.5").1 (145 / 2)
    (by with_unfolding_all decide)

/-- C7: with a committed profile, `logWater` adds the parsed amount
exactly and reports `max 0 (waterGoal - logged)`; a malformed or missing
amount yields the usage reply and mutates nothing. -/
theorem log_water_additive_clamped (ud : UserRecord) (s : Session)
    (text : String) :
    (∀ a : ℤ, water_amount? text = some a →
      cmd_log_water (some ud) s text =
        ⟨some { ud with logged_water := ud.logged_water + (a : ℚ) }, s,
         .waterLogged a (ud.logged_water + (a : ℚ)) ud.water_goal
           (max 0 (ud.water_goal - (ud.logged_water + (a : ℚ))))⟩) ∧
    (water_amount? text = none →
      cmd_log_water (some ud) s text = ⟨some ud, s, .waterUsage⟩) := by
  constructor
  · intro a ha; simp [cmd_log_water, ha]
  · intro hn; simp [cmd_log_water, hn]

theorem log_water_additive_clamped_witness :
    cmd_log_water (some r2500) ⟨.idle, {}⟩ "/log_water 3000" =
      ⟨some { r2500 with logged_water := r2500.logged_water + ((3000 : ℤ) : ℚ) },
       ⟨.idle, {}⟩,
       .waterLogged 3000 (r2500.logged_water + ((3000 : ℤ) : ℚ)) r2500.water_goal
         (max 0 (r2500.water_goal - (r2500.logged_water + ((3000 : ℤ) : ℚ))))⟩ ∧
    max 0 (r2500.water_goal - (r2500.logged_water + ((3000 : ℤ) : ℚ))) = 0 :=
  ⟨(log_water_additive_clamped r2500 ⟨.idle, {}⟩ "/log_water 3000").1 3000
      (by decide),
   by simp only [r2500]; rw [max_eq_left (by norm_num)]⟩

/-- C8: without a committed profile, each of the four ledger commands
replies with the profile-required guidance, mutates nothing and starts
no dialog. -/
theorem profile_required_guards :
    ∀ (s : Session) (text : String) (lookup : FoodLookup),
      cmd_log_water none s text = ⟨none, s, .needProfile⟩ ∧
      cmd_log_workout none s text = ⟨none, s, .needProfile⟩ ∧
      cmd_log_food none s text lookup = ⟨none, s, .needProfile⟩ ∧
      cmd_check_progress none s = ⟨none, s, .needProfile⟩ := by
  intro s text lookup
  exact ⟨rfl, rfl, rfl, rfl⟩

end Bot

namespace Bot

/-- C2 counterexample: the rate table of the code is keyed by Russian
type names, so "running" falls back to the default rate 5 and
logWorkout("running", 45) burns 225 kcal, not the 450 the claim states
(水 is added as claimed: (45 // 30) * 200 = 200 ml). -/
theorem workout_rate_counterexample :
    cmd_log_workout (some r2500) ⟨.idle, {}⟩ "/log_workout running 45" =
      ⟨some { r2500 with burned_calories := r2500.burned_calories + 225,
                         logged_water := r2500.logged_water + 200 },
       ⟨.idle, {}⟩, .workoutLogged "running" 45 225 200⟩ ∧
    calories_per_minute (pyLower "running") = 5 ∧ (225 : ℚ) ≠ 450 := by
  have hargs : workout_data "/log_workout running 45" = ["running", "45"] := by decide
  have hlow : pyLower "running" = "running" := by decide
  have hd : pyInt? "45" = some (45 : ℤ) := by decide
  have hfd : (Int.fdiv 45 30 * 200 : ℤ) = 200 := by decide
  have hcal : calories_per_minute "running" = 5 := by decide
  refine ⟨?_, by rw [hlow, hcal], by norm_num⟩
  simp only [cmd_log_workout, hargs, hd, hlow, hfd, hcal]
  norm_num

/-- C2 (amended): for a user with a profile, logWorkout adds
`rate(lower(t)) * d` to burnedKcal and `(d // 30) * 200` to
loggedWaterMl, where the rate table is keyed by the lowercased Russian
names {бег:10, плавание:8, йога:4, велосипед:6} with default 5 for any
other type (including the English names); so logWorkout("бег", 45)
burns 450 kcal and adds 200 ml, and an unrecognized type with duration
10 burns 50 kcal and adds 0 ml. -/
theorem log_workout_amended (ud : UserRecord) (s : Session)
    (text workout_type durStr : String) (rest : List String) (d : ℤ)
    (hargs : workout_data text = workout_type :: durStr :: rest)
    (hd : pyInt? durStr = some d) :
    cmd_log_workout (some ud) s text =
      ⟨some { ud with
          burned_calories :=
            ud.burned_calories + calories_per_minute (pyLower workout_type) * (d : ℚ),
          logged_water := ud.logged_water + ((Int.fdiv d 30 * 200 : ℤ) : ℚ) },
       s, .workoutLogged workout_type d
         (calories_per_minute (pyLower workout_type) * (d : ℚ)) (Int.fdiv d 30 * 200)⟩ ∧
    calories_per_minute "бег" = 10 ∧ calories_per_minute "плавание" = 8 ∧
    calories_per_minute "йога" = 4 ∧ calories_per_minute "велосипед" = 6 ∧
    calories_per_minute (pyLower "running") = 5 ∧
    calories_per_minute (pyLower "бег") * ((45 : ℤ) : ℚ) = 450 ∧
    calories_per_minute (pyLower "unknown") * ((10 : ℤ) : ℚ) = 50 ∧
    Int.fdiv 45 30 * 200 = 200 ∧ Int.fdiv 10 30 * 200 = 0 := by
  have hrun : pyLower "running" = "running" := by decide
  have hbeg : pyLower "бег" = "бег" := by decide
  have hunk : pyLower "unknown" = "unknown" := by decide
  refine ⟨by simp only [cmd_log_workout, hargs, hd],
    by decide, by decide, by decide, by decide,
    by rw [hrun]; decide,
    by rw [hbeg]; norm_num [calories_per_minute],
    by rw [hunk]; with_unfolding_all decide,
    by decide, by decide⟩

theorem log_workout_amended_witness :
    (cmd_log_workout (some r2500) ⟨.idle, {}⟩ "/log_workout бег 45" =
      ⟨some { r2500 with
          burned_calories :=
            r2500.burned_calories + calories_per_minute (pyLower "бег") * ((45 : ℤ) : ℚ),
          logged_water := r2500.logged_water + ((Int.fdiv 45 30 * 200 : ℤ) : ℚ) },
       ⟨.idle, {}⟩, .workoutLogged "бег" 45
         (calories_per_minute (pyLower "бег") * ((45 : ℤ) : ℚ)) (Int.fdiv 45 30 * 200)⟩) ∧
    calories_per_minute "бег" = 10 ∧ calories_per_minute "плавание" = 8 ∧
    calories_per_minute "йога" = 4 ∧ calories_per_minute "велосипед" = 6 ∧
    calories_per_minute (pyLower "running") = 5 ∧
    calories_per_minute (pyLower "бег") * ((45 : ℤ) : ℚ) = 450 ∧
    calories_per_minute (pyLower "unknown") * ((10 : ℤ) : ℚ) = 50 ∧
    Int.fdiv 45 30 * 200 = 200 ∧ Int.fdiv 10 30 * 200 = 0 :=
  log_workout_amended r2500 ⟨.idle, {}⟩ "/log_workout бег 45" "бег" "45" [] 45
    (by decide) (by decide)

/-- C5: in phase AwaitingCity, an unavailable temperature lookup leaves
the session (phase and draft) and the user entry untouched and emits the
failure reply; an available temperature commits a fresh profile with the
computed goals and an all-zero ledger (replacing whatever entry was
there) and clears the session back to idle. -/
theorem awaiting_city_commit (u : Option UserRecord) (s : Session)
    (city : String) (hp : s.phase = .city) :
    set_city u s city none = some ⟨u, s, .weatherFail⟩ ∧
    (∀ (t w h : ℚ) (y a : ℤ),
      s.draft.weight = some w → s.draft.height = some h →
      s.draft.age = some y → s.draft.activity = some a →
      set_city u s city (some t) = some
        ⟨some ⟨w, h, y, a, city,
               round3 (w * 30 + (a : ℚ) / 30 * 500 + if 25 < t then 500 else 0),
               round3 (10 * w + 6.25 * h - 5 * (y : ℚ)), 0, 0, 0⟩,
         ⟨.idle, {}⟩,
         .profileSet (round3 (w * 30 + (a : ℚ) / 30 * 500 + if 25 < t then 500 else 0))
           (round3 (10 * w + 6.25 * h - 5 * (y : ℚ))) t⟩) := by
  refine ⟨rfl, ?_⟩
  intro t w h y a hw hh hy ha
  simp only [set_city, hw, hh, hy, ha]

theorem awaiting_city_commit_witness :
    set_city (some r2500)
        ⟨.city, { weight := some 70, height := some 175,
                  age := some 25, activity := some 60 }⟩ "Сочи" none =
      some ⟨some r2500,
            ⟨.city, { weight := some 70, height := some 175,
                      age := some 25, activity := some 60 }⟩, .weatherFail⟩ ∧
    set_city (some r2500)
        ⟨.city, { weight := some 70, height := some 175,
                  age := some 25, activity := some 60 }⟩ "Сочи" (some 30) =
      some ⟨some ⟨70, 175, 25, 60, "Сочи",
                  round3 (70 * 30 + ((60 : ℤ) : ℚ) / 30 * 500 +
                    if (25 : ℚ) < 30 then 500 else 0),
                  round3 (10 * 70 + 6.25 * 175 - 5 * ((25 : ℤ) : ℚ)), 0, 0, 0⟩,
            ⟨.idle, {}⟩,
            .profileSet (round3 (70 * 30 + ((60 : ℤ) : ℚ) / 30 * 500 +
                if (25 : ℚ) < 30 then 500 else 0))
              (round3 (10 * 70 + 6.25 * 175 - 5 * ((25 : ℤ) : ℚ))) 30⟩ :=
  ⟨(awaiting_city_commit (some r2500) _ "Сочи" rfl).1,
   (awaiting_city_commit (some r2500) _ "Сочи" rfl).2 30 70 175 25 60 rfl rfl rfl rfl⟩

/-- C6: in phase AwaitingFoodQuantity with stored kcal density `c`, an
input parsing as grams `g` adds exactly `c / 100 * g` to loggedFoodKcal,
clears the session back to idle, and leaves every other field of the
user's record unchanged. -/
theorem food_quantity_adds_exactly (ud : UserRecord) (s : Session)
    (text food_name : String) (c g : ℚ)
    (hfn : s.draft.food_name = some food_name)
    (hc : s.draft.calories_per_100g = some c)
    (hg : pyFloat? text = some g) :
    process_food_quantity (some ud) s text =
      some ⟨some { ud with logged_calories := ud.logged_calories + c / 100 * g },
            ⟨.idle, {}⟩, .foodLogged food_name (c / 100 * g) g⟩ := by
  simp only [process_food_quantity, hg, hfn, hc]

theorem food_quantity_adds_exactly_witness :
    process_food_quantity (some r2500)
        ⟨.waiting_for_quantity,
         { food_name := some "apple", calories_per_100g := some 52 }⟩ "150" =
      some ⟨some { r2500 with logged_calories := r2500.logged_calories + 52 / 100 * 150 },
            ⟨.idle, {}⟩, .foodLogged "apple" (52 / 100 * 150) 150⟩ ∧
    (52 : ℚ) / 100 * 150 = 78 :=
  ⟨food_quantity_adds_exactly r2500 _ "150" "apple" 52 150 rfl rfl
      (by with_unfolding_all decide),
   by norm_num⟩

/-- C10: a 200-response whose first product lacks the per-100g kcal
field is not treated as not-found: the dialog stores density 0 and moves
to AwaitingFoodQuantity, and the subsequent quantity input adds exactly
0 kcal to the ledger whatever the grams. -/
theorem missing_kcal_field_defaults_zero (ud : UserRecord) (s : Session)
    (text : String) (p : Product) (rest : List Product)
    (hname : ¬ food_name_arg text = "") (hp : p.energy_kcal_100g = none) :
    cmd_log_food (some ud) s text (.ok (p :: rest)) =
      ⟨some ud,
       ⟨.waiting_for_quantity,
        { s.draft with food_name := some (food_name_arg text),
                       calories_per_100g := some 0 }⟩,
       .foodPrompt (food_name_arg text) 0⟩ ∧
    (∀ (g : ℚ) (text2 : String), pyFloat? text2 = some g →
      process_food_quantity (some ud)
          ⟨.waiting_for_quantity,
           { s.draft with food_name := some (food_name_arg text),
                          calories_per_100g := some 0 }⟩ text2 =
        some ⟨some ud, ⟨.idle, {}⟩,
              .foodLogged (food_name_arg text) (0 / 100 * g) g⟩) := by
  constructor
  · simp only [cmd_log_food, hp, if_neg hname, Option.getD_none]
  · intro g text2 hg
    simp only [process_food_quantity, hg, zero_div, zero_mul, add_zero]

theorem missing_kcal_field_defaults_zero_witness :
    cmd_log_food (some r2500) ⟨.idle, {}⟩ "/log_food борщ" (.ok [⟨none⟩]) =
      ⟨some r2500,
       ⟨.waiting_for_quantity,
        { food_name := some (food_name_arg "/log_food борщ"),
          calories_per_100g := some 0 }⟩,
       .foodPrompt (food_name_arg "/log_food борщ") 0⟩ ∧
    process_food_quantity (some r2500)
        ⟨.waiting_for_quantity,
         { food_name := some (food_name_arg "/log_food борщ"),
           calories_per_100g := some 0 }⟩ "150" =
      some ⟨some r2500, ⟨.idle, {}⟩,
            .foodLogged (food_name_arg "/log_food борщ") (0 / 100 * 150) 150⟩ :=
  ⟨(missing_kcal_field_defaults_zero r2500 ⟨.idle, {}⟩ "/log_food борщ" ⟨none⟩ []
      (by decide) rfl).1,
   (missing_kcal_field_defaults_zero r2500 ⟨.idle, {}⟩ "/log_food борщ" ⟨none⟩ []
      (by decide) rfl).2 150 "150" (by with_unfolding_all decide)⟩

end Bot

namespace Bot

theorem calories_per_minute_nonneg (t : String) : 0 ≤ calories_per_minute t := by
  unfold calories_per_minute
  split_ifs <;> norm_num

/-- C3 counterexample: `cmd_log_water` accepts a negative amount (the
code never checks the sign), so starting from an all-zero ledger,
"/log_water -100" drives loggedWaterMl to -100: negative, and strictly
below its previous value. -/
theorem ledger_monotone_counterexample :
    (cmd_log_water (some r2500) ⟨.idle, {}⟩ "/log_water -100").user =
      some { r2500 with logged_water := r2500.logged_water + ((-100 : ℤ) : ℚ) } ∧
    r2500.logged_water + ((-100 : ℤ) : ℚ) < 0 ∧
    r2500.logged_water + ((-100 : ℤ) : ℚ) < r2500.logged_water := by
  have ha : water_amount? "/log_water -100" = some (-100) := by decide
  refine ⟨by simp only [cmd_log_water, ha], by norm_num [r2500], by norm_num [r2500]⟩

/-- C3 (amended): provided every parsed numeric input is non-negative
(the logWater amount, the workout duration, the food grams) and the
stored kcal density is non-negative, every ledger operation leaves each
of the three ledger quantities at or above its previous value; and
monotonicity preserves non-negativity. The code does not validate the
sign of these inputs, so a negative input can decrease a ledger quantity
(see the counterexample). -/
theorem ledger_monotone_amended :
    (∀ (u : Option UserRecord) (s : Session) (text : String),
      (∀ a : ℤ, water_amount? text = some a → 0 ≤ a) →
      LedgerMono u (cmd_log_water u s text).user) ∧
    (∀ (u : Option UserRecord) (s : Session) (text : String),
      (∀ d : ℤ, workout_duration? text = some d → 0 ≤ d) →
      LedgerMono u (cmd_log_workout u s text).user) ∧
    (∀ (u : Option UserRecord) (s : Session) (text : String) (e : Effect),
      (∀ g : ℚ, pyFloat? text = some g → 0 ≤ g) →
      (∀ c : ℚ, s.draft.calories_per_100g = some c → 0 ≤ c) →
      process_food_quantity u s text = some e → LedgerMono u e.user) ∧
    (∀ (u : Option UserRecord) (s : Session),
      LedgerMono u (cmd_check_progress u s).user) ∧
    (∀ r r' : UserRecord, LedgerMono (some r) (some r') →
      LedgerNonneg r → LedgerNonneg r') := by
  refine ⟨?_, ?_, ?_, ?_, ?_⟩
  · intro u s text h
    cases u with
    | none => exact trivial
    | some ud =>
      cases hA : water_amount? text with
      | none =>
        simp only [cmd_log_water, hA]
        exact ⟨le_refl _, le_refl _, le_refl _⟩
      | some a =>
        have ha : (0 : ℚ) ≤ (a : ℚ) := by exact_mod_cast h a hA
        simp only [cmd_log_water, hA]
        exact ⟨le_add_of_nonneg_right ha, le_refl _, le_refl _⟩
  · intro u s text h
    cases u with
    | none => exact trivial
    | some ud =>
      cases hargs : workout_data text with
      | nil =>
        simp only [cmd_log_workout, hargs]
        exact ⟨le_refl _, le_refl _, le_refl _⟩
      | cons workout_type rest0 =>
        cases rest0 with
        | nil =>
          simp only [cmd_log_workout, hargs]
          exact ⟨le_refl _, le_refl _, le_refl _⟩
        | cons durStr rest =>
          cases hd : pyInt? durStr with
          | none =>
            simp only [cmd_log_workout, hargs, hd]
            exact ⟨le_refl _, le_refl _, le_refl _⟩
          | some d =>
            have hd0 : 0 ≤ d := by
              refine h d ?_
              simp only [workout_duration?, hargs, hd]
            have hq0 : (0 : ℚ) ≤ (d : ℚ) := by exact_mod_cast hd0
            have hw0 : (0 : ℚ) ≤ ((Int.fdiv d 30 * 200 : ℤ) : ℚ) := by
              have : (0 : ℤ) ≤ Int.fdiv d 30 * 200 :=
                mul_nonneg (Int.fdiv_nonneg hd0 (by norm_num)) (by norm_num)
              exact_mod_cast this
            simp only [cmd_log_workout, hargs, hd]
            exact ⟨le_add_of_nonneg_right hw0, le_refl _,
              le_add_of_nonneg_right (mul_nonneg (calories_per_minute_nonneg _) hq0)⟩
  · intro u s text e hg hc he
    cases hG : pyFloat? text with
    | none =>
      simp only [process_food_quantity, hG] at he
      injection he with he
      subst he
      exact ledgerMono_refl u
    | some grams =>
      have hg0 : (0 : ℚ) ≤ grams := hg grams hG
      cases hfn : s.draft.food_name with
      | none =>
        simp only [process_food_quantity, hG, hfn] at he
        exact Option.noConfusion he
      | some food_name =>
        cases hC : s.draft.calories_per_100g with
        | none =>
          simp only [process_food_quantity, hG, hfn, hC] at he
          exact Option.noConfusion he
        | some c =>
          cases u with
          | none =>
            simp only [process_food_quantity, hG, hfn, hC] at he
            exact Option.noConfusion he
          | some ud =>
            have hc0 : (0 : ℚ) ≤ c := hc c hC
            simp only [process_food_quantity, hG, hfn, hC] at he
            injection he with he
            subst he
            exact ⟨le_refl _,
              le_add_of_nonneg_right
                (mul_nonneg (div_nonneg hc0 (by norm_num)) hg0),
              le_refl _⟩
  · intro u s
    cases u with
    | none => exact trivial
    | some ud => exact ⟨le_refl _, le_refl _, le_refl _⟩
  · rintro r r' ⟨h1, h2, h3⟩ ⟨n1, n2, n3⟩
    exact ⟨le_trans n1 h1, le_trans n2 h2, le_trans n3 h3⟩

theorem ledger_monotone_amended_witness :
    LedgerMono (some r2500)
      (cmd_log_water (some r2500) ⟨.idle, {}⟩ "/log_water 100").user :=
  ledger_monotone_amended.1 (some r2500) ⟨.idle, {}⟩ "/log_water 100"
    (fun a ha => by
      rw [show water_amount? "/log_water 100" = some 100 from by decide] at ha
      injection ha with h
      omega)

end Bot

namespace Bot

/-- C9 counterexample: a /set_profile command received while the profile
dialog awaits the height is handled by `cmd_set_profile` (whose Command
filter matches in every FSM state and which is registered before the
phase handlers), resetting the phase to AwaitingWeight — the in-progress
dialog is replaced, not left to the handler of the current phase. -/
theorem command_routing_counterexample :
    dispatch none ⟨.height, { weight := some 70 }⟩ "/set_profile" none .apiError =
      some ⟨none, ⟨.weight, { weight := some 70 }⟩, .askWeight⟩ ∧
    Phase.weight ≠ Phase.height := by
  constructor
  · have h1 : isCmd "start" "/set_profile" = false := by decide
    have h2 : isCmd "help" "/set_profile" = false := by decide
    have h3 : isCmd "set_profile" "/set_profile" = true := by decide
    simp only [dispatch, h1, h2, h3, Bool.false_eq_true, if_false, if_true,
      cmd_set_profile]
  · decide

/-- C9 (amended): while a profile dialog is in progress (phase
AwaitingWeight..AwaitingCity), any input that is not a /start, /help or
/set_profile command is handled by the handler of the current phase;
/start and /help leave the session untouched; but /set_profile received
in such a phase resets the phase to AwaitingWeight (draft retained),
replacing the in-progress dialog. -/
theorem command_routing_amended (u : Option UserRecord) (s : Session)
    (text : String) (temp? : Option ℚ) (lookup : FoodLookup)
    (hp : s.phase = .weight ∨ s.phase = .height ∨ s.phase = .age ∨
      s.phase = .activity ∨ s.phase = .city) :
    (isCmd "start" text = false → isCmd "help" text = false →
      isCmd "set_profile" text = false →
      dispatch u s text temp? lookup = phase_handler u s text temp?) ∧
    dispatch u s "/set_profile" temp? lookup =
      some ⟨u, ⟨.weight, s.draft⟩, .askWeight⟩ ∧
    dispatch u s "/start" temp? lookup = some ⟨u, s, .startMsg⟩ ∧
    dispatch u s "/help" temp? lookup = some ⟨u, s, .helpMsg⟩ := by
  refine ⟨?_, ?_, ?_, ?_⟩
  · intro h1 h2 h3
    rcases hp with h | h | h | h | h <;>
      simp only [dispatch, phase_handler, h1, h2, h3, h, Bool.false_eq_true,
        if_false, if_true, reduceCtorEq, reduceIte]
  · have h1 : isCmd "start" "/set_profile" = false := by decide
    have h2 : isCmd "help" "/set_profile" = false := by decide
    have h3 : isCmd "set_profile" "/set_profile" = true := by decide
    simp only [dispatch, h1, h2, h3, Bool.false_eq_true, if_false, if_true,
      cmd_set_profile]
  · have h1 : isCmd "start" "/start" = true := by decide
    simp only [dispatch, h1, if_true, cmd_start]
  · have h1 : isCmd "start" "/help" = false := by decide
    have h2 : isCmd "help" "/help" = true := by decide
    simp only [dispatch, h1, h2, Bool.false_eq_true, if_false, if_true, cmd_help]

theorem command_routing_amended_witness :
    dispatch none ⟨.height, {}⟩ "180" none .apiError =
      phase_handler none ⟨.height, {}⟩ "180" none ∧
    dispatch none ⟨.height, {}⟩ "/set_profile" none .apiError =
      some ⟨none, ⟨.weight, {}⟩, .askWeight⟩ ∧
    dispatch none ⟨.height, {}⟩ "/start" none .apiError =
      some ⟨none, ⟨.height, {}⟩, .startMsg⟩ ∧
    dispatch none ⟨.height, {}⟩ "/help" none .apiError =
      some ⟨none, ⟨.height, {}⟩, .helpMsg⟩ := by
  have H := command_routing_amended none ⟨.height, {}⟩ "180" none .apiError
    (Or.inr (Or.inl rfl))
  exact ⟨H.1 (by decide) (by decide) (by decide), H.2.1, H.2.2.1, H.2.2.2⟩

end Bot
